import Mathlib

/-!
Shallow embedding of the web-sustainability-checker scoring and report
pipeline.  JavaScript numbers are modelled as exact rationals (ℚ);
`Math.round` is modelled as `jsRound` (floor of x + 1/2, JS round-half-up
semantics); `Math.floor` is `Int.floor`; `Math.max(0, Math.min(100, n))`
is `clampScore`.  Division by zero in ℚ yields 0, which is noted where the
source can divide by zero.
-/

namespace WSC

/-- Model of JavaScript `Math.round` (round half towards +infinity). -/
def jsRound (q : ℚ) : ℤ := ⌊q + (1 : ℚ) / 2⌋

/-- Model of `Math.max(0, Math.min(100, n))` applied to an integer score. -/
def clampScore (n : ℤ) : ℤ := max 0 (min 100 n)

/-- The normalized measurement record produced by the basic and
simulated-basic producers (interface `WebsiteAnalysis` in
`lib/website-analyzer.ts`). -/
structure WebsiteAnalysis where
  url : String
  loadTime : ℚ
  pageSize : ℚ
  imageCount : ℚ
  scriptCount : ℚ
  cssCount : ℚ
  fontCount : ℚ
  videoCount : ℚ
  accessibilityScore : ℚ
  seoScore : ℚ
  performanceScore : ℚ
  carbonFootprint : ℚ
  greenHosting : Bool
  compressionEnabled : Bool
  cdnEnabled : Bool

/-- `calculateEnergyEfficiency` from `app/api/ws-report/route.ts`. -/
def calculateEnergyEfficiency (d : WebsiteAnalysis) : ℤ :=
  let s : ℚ := 100
  let s : ℚ :=
    if d.loadTime > 3000 then s - min 30 ((d.loadTime - 3000) / 100)
    else if d.loadTime > 2000 then s - min 20 ((d.loadTime - 2000) / 100)
    else s
  let s : ℚ :=
    if d.pageSize > 2000 then s - min 25 ((d.pageSize - 2000) / 100)
    else if d.pageSize > 1000 then s - min 15 ((d.pageSize - 1000) / 100)
    else s
  let s : ℚ := if d.videoCount > 2 then s - (d.videoCount - 2) * 5 else s
  let s : ℚ := if d.compressionEnabled then s + 5 else s
  let s : ℚ := if d.cdnEnabled then s + 5 else s
  clampScore (jsRound s)

/-- `calculateCarbonFootprintScore` from `app/api/ws-report/route.ts`. -/
def calculateCarbonFootprintScore (d : WebsiteAnalysis) : ℤ :=
  let s : ℚ := 100
  let s : ℚ :=
    if d.carbonFootprint > 2 then s - min 40 ((d.carbonFootprint - 2) * 20)
    else if d.carbonFootprint > 1 then s - min 20 ((d.carbonFootprint - 1) * 20)
    else s
  let s : ℚ := if d.greenHosting then s + 10 else s
  let s : ℚ := if d.compressionEnabled then s + 5 else s
  let s : ℚ := if d.cdnEnabled then s + 5 else s
  clampScore (jsRound s)

/-- `calculateResourceOptimization` from `app/api/ws-report/route.ts`. -/
def calculateResourceOptimization (d : WebsiteAnalysis) : ℤ :=
  let s : ℚ := 100
  let s : ℚ := if d.scriptCount > 10 then s - (d.scriptCount - 10) * 3 else s
  let s : ℚ := if d.cssCount > 5 then s - (d.cssCount - 5) * 4 else s
  let s : ℚ := if d.fontCount > 3 then s - (d.fontCount - 3) * 5 else s
  let s : ℚ := if d.pageSize > 1500 then s - min 20 ((d.pageSize - 1500) / 100) else s
  let s : ℚ := if d.compressionEnabled then s + 5 else s
  let s : ℚ := if d.cdnEnabled then s + 5 else s
  clampScore (jsRound s)

/-! Fixed recommendation strings of `generateRecommendations` in
`app/api/ws-report/route.ts`, in source order. -/

def recLoadTime : String :=
  "Optimize page load time by reducing server response time and implementing lazy loading"

def recPageSize : String :=
  "Compress and optimize images, minify CSS/JS files to reduce page size"

def recVideos : String :=
  "Consider replacing videos with optimized images or implementing video lazy loading"

def recCompression : String :=
  "Enable gzip or Brotli compression on your server to reduce file sizes"

def recCdn : String :=
  "Implement a Content Delivery Network (CDN) to improve loading speeds globally"

def recGreenHost : String :=
  "Switch to a green hosting provider that runs on renewable energy"

def recReducePage : String :=
  "Reduce page size by optimizing media files and removing unused code"

def recOptimizeVideo : String :=
  "Optimize video content and consider using lower resolution versions for mobile"

def recScripts : String :=
  "Consolidate JavaScript files and remove unused scripts to reduce HTTP requests"

def recCss : String :=
  "Combine CSS files and remove unused styles to improve performance"

def recFonts : String :=
  "Limit font families and use system fonts when possible to reduce loading time"

def recImages : String :=
  "Implement lazy loading for images and use modern formats like WebP"

def recA11yAlt : String :=
  "Improve accessibility by adding proper alt text, semantic HTML, and keyboard navigation"

def recA11yContrast : String :=
  "Ensure sufficient color contrast and readable font sizes for better user experience"

def recA11yAria : String :=
  "Add ARIA labels and roles where appropriate for screen readers"

def recGeneralCaching : String :=
  "Implement caching strategies to reduce server load and improve user experience"

def recGeneralFormats : String :=
  "Use modern image formats (WebP, AVIF) and responsive images for better performance"

def recGeneralWorker : String :=
  "Consider implementing a service worker for offline functionality and reduced server requests"

def recGeneralAudit : String :=
  "Regularly audit and remove unused code, images, and third-party scripts"

/-- All strings `generateRecommendations` (basic path) can ever push,
in push order. -/
def allBasicRecs : List String :=
  [recLoadTime, recPageSize, recVideos, recCompression, recCdn,
   recGreenHost, recReducePage, recOptimizeVideo,
   recScripts, recCss, recFonts, recImages,
   recA11yAlt, recA11yContrast, recA11yAria,
   recGeneralCaching, recGeneralFormats, recGeneralWorker, recGeneralAudit]

/-- Helper for `dedupFirst`: keeps elements not yet seen, first occurrence
wins (the behaviour of `[...new Set(xs)]` in JavaScript). -/
def dedupAux : List String → List String → List String
  | _, [] => []
  | acc, x :: xs => if x ∈ acc then dedupAux acc xs else x :: dedupAux (x :: acc) xs

/-- Model of `[...new Set(xs)]`: deduplicate preserving first-seen order. -/
def dedupFirst (l : List String) : List String := dedupAux [] l

/-- The sub-score record handed to `generateRecommendations`. -/
structure BasicScores where
  energyEfficiency : ℤ
  carbonFootprint : ℤ
  resourceOptimization : ℤ
  accessibility : ℚ

/-- `generateRecommendations` from `app/api/ws-report/route.ts`: threshold
rules push fixed strings, then `[...new Set(...)].slice(0, 10)`. -/
def generateRecommendations (d : WebsiteAnalysis) (sc : BasicScores) : List String :=
  let recs : List String :=
    (if sc.energyEfficiency < 80 then
      (if d.loadTime > 2000 then [recLoadTime] else []) ++
      (if d.pageSize > 1000 then [recPageSize] else []) ++
      (if d.videoCount > 1 then [recVideos] else []) ++
      (if !d.compressionEnabled then [recCompression] else []) ++
      (if !d.cdnEnabled then [recCdn] else [])
    else []) ++
    (if sc.carbonFootprint < 80 then
      (if !d.greenHosting then [recGreenHost] else []) ++
      (if d.pageSize > 1000 then [recReducePage] else []) ++
      (if d.videoCount > 0 then [recOptimizeVideo] else [])
    else []) ++
    (if sc.resourceOptimization < 80 then
      (if d.scriptCount > 10 then [recScripts] else []) ++
      (if d.cssCount > 5 then [recCss] else []) ++
      (if d.fontCount > 3 then [recFonts] else []) ++
      (if d.imageCount > 15 then [recImages] else [])
    else []) ++
    (if sc.accessibility < 80 then [recA11yAlt, recA11yContrast, recA11yAria] else []) ++
    [recGeneralCaching, recGeneralFormats, recGeneralWorker, recGeneralAudit]
  (dedupFirst recs).take 10

/-- Which producer supplied the data (`analysisMethod` in the route). -/
inductive AnalysisMethod where
  | pagespeed
  | basic
  | simulated
deriving DecidableEq

/-- Disclaimer prepended on the basic path for simulated data. -/
def noteSimulatedBasic : String :=
  "Note: This analysis uses simulated data due to website access restrictions. For accurate results, ensure the website allows external analysis."

/-- Disclaimer prepended on the basic path for scraped data. -/
def noteBasicScrape : String :=
  "Note: This analysis uses basic website scraping. For more accurate results, consider providing a Google PageSpeed Insights API key."

/-- The report built by `generateSustainabilityReport` (basic path). -/
structure BasicReport where
  overallScore : ℤ
  energyEfficiency : ℤ
  carbonFootprint : ℤ
  resourceOptimization : ℤ
  accessibility : ℚ
  recommendations : List String
  analysisMethod : AnalysisMethod

/-- `generateSustainabilityReport` from `app/api/ws-report/route.ts`:
equal-weight overall score, recommendations with the method disclaimer
`unshift`ed afterwards. -/
def generateSustainabilityReport (d : WebsiteAnalysis) (meth : AnalysisMethod) : BasicReport :=
  let e := calculateEnergyEfficiency d
  let c := calculateCarbonFootprintScore d
  let r := calculateResourceOptimization d
  let a := d.accessibilityScore
  let overall := jsRound ((e : ℚ) * 0.25 + (c : ℚ) * 0.25 + (r : ℚ) * 0.25 + a * 0.25)
  let recs0 := generateRecommendations d ⟨e, c, r, a⟩
  let recs :=
    match meth with
    | .simulated => noteSimulatedBasic :: recs0
    | .basic => noteBasicScrape :: recs0
    | .pagespeed => recs0
  { overallScore := overall
    energyEfficiency := e
    carbonFootprint := c
    resourceOptimization := r
    accessibility := a
    recommendations := recs
    analysisMethod := meth }

/-! String helpers modelling the JavaScript string primitives used by the
source, written over the character list of a `String` so that concrete
instances reduce inside the kernel. -/

/-- Does the first list occur as a leading segment of the second? -/
def listStartsWith : List Char → List Char → Bool
  | [], _ => true
  | _ :: _, [] => false
  | c :: cs, d :: ds => c == d && listStartsWith cs ds

/-- Does the second list occur contiguously inside the first? -/
def containsSub : List Char → List Char → Bool
  | [], needle => needle.isEmpty
  | h :: t, needle => listStartsWith needle (h :: t) || containsSub t needle

/-- Model of JavaScript `haystack.includes(needle)`. -/
def strIncludes (haystack needle : String) : Bool :=
  containsSub haystack.data needle.data

/-- Model of JavaScript `s.startsWith(p)` / an anchored regex match. -/
def strStartsWith (s p : String) : Bool :=
  listStartsWith p.data s.data

/-- Drop the first `n` characters of a string. -/
def strDrop (s : String) (n : ℕ) : String :=
  String.mk (s.data.drop n)

/-- Model of JavaScript `s.toLowerCase()` (exact on ASCII, the alphabet
of every URL and hostname this development evaluates). -/
def strLower (s : String) : String :=
  String.mk (s.data.map Char.toLower)

/-! Seeded pseudo-random generator (`generateSeedFromUrl` / `seededRandom`,
identical in `app/api/ws-report/route.ts` and `lib/pagespeed-api.ts`). -/

/-- Ambient JavaScript runtime functions whose exact values the embedding
does not reproduce: `Math.sin` (a fixed pure function, identical across
invocations and process restarts) and `Math.random` (a fresh stream per
invocation).  The code under verification only ever consumes `mathSin`. -/
structure JsEnv where
  mathSin : ℚ → ℚ
  mathRandom : ℕ → ℚ

/-- `seededRandom(seed, index)`: fractional part of
`Math.sin(seed + index * 1000) * 10000`. -/
def seededRandom (env : JsEnv) (seed index : ℚ) : ℚ :=
  let x := env.mathSin (seed + index * 1000) * 10000
  x - ⌊x⌋

/-- Strip a leading `www.` (second capture of the normalization regex). -/
def stripWww (s : String) : String :=
  if strStartsWith s "www." then strDrop s 4 else s

/-- Model of `url.toLowerCase().replace(/^https?:\/\/(www\.)?/, "")`:
lower-case, then drop one leading `http://` or `https://` scheme and, only
when a scheme was present, one leading `www.`. -/
def normalizeUrl (url : String) : String :=
  let l := strLower url
  if strStartsWith l "https://" then stripWww (strDrop l 8)
  else if strStartsWith l "http://" then stripWww (strDrop l 7)
  else l

/-- Wrap an integer into the signed 32-bit range, as JavaScript bitwise
operators do (`hash & hash` and `hash << 5`). -/
def toInt32 (n : ℤ) : ℤ := (n + 2 ^ 31) % 2 ^ 32 - 2 ^ 31

/-- One step of the URL hash:
`hash = ((hash << 5) - hash) + charCode; hash = hash & hash`. -/
def hashStep (h c : ℤ) : ℤ := toInt32 (toInt32 (h * 32) - h + c)

/-- `generateSeedFromUrl`: fold the 31-based hash over the code points of
the normalized URL, then `Math.abs`. -/
def generateSeedFromUrl (url : String) : ℤ :=
  |(normalizeUrl url).data.foldl (fun h ch => hashStep h (Int.ofNat ch.toNat)) 0|

/-- `generateSimulatedAnalysis` from `app/api/ws-report/route.ts`: the
deterministic simulated-basic producer (producer 4), driven entirely by
`seededRandom` of the URL seed. -/
def generateSimulatedAnalysis (env : JsEnv) (url : String) : WebsiteAnalysis :=
  let seed : ℚ := (generateSeedFromUrl url : ℤ)
  let loadTime := seededRandom env seed 0 * 2000 + 500
  let pageSize := seededRandom env seed 1 * 1500 + 300
  let imageCount : ℤ := ⌊seededRandom env seed 2 * 15⌋ + 3
  let scriptCount : ℤ := ⌊seededRandom env seed 3 * 12⌋ + 2
  let cssCount : ℤ := ⌊seededRandom env seed 4 * 6⌋ + 1
  let fontCount : ℤ := ⌊seededRandom env seed 5 * 4⌋ + 1
  let videoCount : ℤ := ⌊seededRandom env seed 6 * 2⌋
  let accessibilityScore : ℚ := max 60 (min 95 (80 + (seededRandom env seed 7 - 0.5) * 30))
  let seoScore : ℚ := max 65 (min 95 (75 + (seededRandom env seed 8 - 0.5) * 20))
  let performanceScore : ℚ := max 60 (min 95 (75 + (seededRandom env seed 9 - 0.5) * 30))
  let carbonFootprint : ℚ := (jsRound (pageSize / 1000 * 0.5 * 100) : ℤ) / 100
  let greenHosting := seededRandom env seed 10 > 0.7
  let compressionEnabled := seededRandom env seed 11 > 0.4
  let cdnEnabled := seededRandom env seed 12 > 0.5
  { url := url
    loadTime := (jsRound loadTime : ℤ)
    pageSize := ((jsRound (pageSize * 100) : ℤ) : ℚ) / 100
    imageCount := (imageCount : ℚ)
    scriptCount := (scriptCount : ℚ)
    cssCount := (cssCount : ℚ)
    fontCount := (fontCount : ℚ)
    videoCount := (videoCount : ℚ)
    accessibilityScore := (jsRound accessibilityScore : ℤ)
    seoScore := (jsRound seoScore : ℤ)
    performanceScore := (jsRound performanceScore : ℤ)
    carbonFootprint := carbonFootprint
    greenHosting := greenHosting
    compressionEnabled := compressionEnabled
    cdnEnabled := cdnEnabled }

/-! The richer (PageSpeed-shaped) data model, `lib/pagespeed-api.ts`. -/

/-- Per-type resource request counts of `PageSpeedData.resourceCounts`. -/
structure ResourceCounts where
  images : ℚ
  scripts : ℚ
  stylesheets : ℚ
  fonts : ℚ
  videos : ℚ
  total : ℚ

/-- Interface `PageSpeedData` from `lib/pagespeed-api.ts`. -/
structure PageSpeedData where
  url : String
  performanceScore : ℚ
  accessibilityScore : ℚ
  bestPracticesScore : ℚ
  seoScore : ℚ
  firstContentfulPaint : ℚ
  largestContentfulPaint : ℚ
  firstInputDelay : ℚ
  cumulativeLayoutShift : ℚ
  speedIndex : ℚ
  totalBlockingTime : ℚ
  totalResourceSize : ℚ
  imageResourceSize : ℚ
  scriptResourceSize : ℚ
  stylesheetResourceSize : ℚ
  fontResourceSize : ℚ
  resourceCounts : ResourceCounts
  unusedCssBytes : ℚ
  unusedJsBytes : ℚ
  unoptimizedImageBytes : ℚ
  serverResponseTime : ℚ
  renderBlockingResources : ℚ
  domSize : ℚ
  criticalRequestChains : ℚ

/-- `PageSpeedAPI.analyzeUrlFallback`: the deterministic simulated
PageSpeed producer (producer 2), driven entirely by `seededRandom` of the
URL seed.  Raw (unrounded) intermediate values feed the derived sizes,
exactly as in the source; rounding happens only in the returned record. -/
def analyzeUrlFallback (env : JsEnv) (url : String) : PageSpeedData :=
  let seed : ℚ := (generateSeedFromUrl url : ℤ)
  let sr : ℚ → ℚ := fun i => seededRandom env seed i
  let performanceScore : ℤ := ⌊sr 0 * 40⌋ + 50
  let accessibilityScore : ℤ := ⌊sr 1 * 30⌋ + 65
  let bestPracticesScore : ℤ := ⌊sr 2 * 35⌋ + 60
  let seoScore : ℤ := ⌊sr 3 * 25⌋ + 70
  let firstContentfulPaint := sr 4 * 2000 + 800
  let largestContentfulPaint := sr 5 * 3000 + 1500
  let firstInputDelay := sr 6 * 100 + 50
  let cumulativeLayoutShift := sr 7 * 0.15
  let speedIndex := sr 8 * 2000 + 1000
  let totalBlockingTime := sr 9 * 300 + 100
  let totalResourceSize := sr 10 * 2000000 + 500000
  let imageResourceSize := totalResourceSize * (0.3 + sr 11 * 0.4)
  let scriptResourceSize := totalResourceSize * (0.1 + sr 12 * 0.3)
  let stylesheetResourceSize := totalResourceSize * (0.05 + sr 13 * 0.1)
  let fontResourceSize := totalResourceSize * (0.02 + sr 14 * 0.05)
  let cImages : ℤ := ⌊sr 15 * 20⌋ + 5
  let cScripts : ℤ := ⌊sr 16 * 15⌋ + 3
  let cStylesheets : ℤ := ⌊sr 17 * 8⌋ + 2
  let cFonts : ℤ := ⌊sr 18 * 5⌋ + 1
  let cVideos : ℤ := ⌊sr 19 * 3⌋
  { url := url
    performanceScore := (performanceScore : ℚ)
    accessibilityScore := (accessibilityScore : ℚ)
    bestPracticesScore := (bestPracticesScore : ℚ)
    seoScore := (seoScore : ℚ)
    firstContentfulPaint := (jsRound firstContentfulPaint : ℤ)
    largestContentfulPaint := (jsRound largestContentfulPaint : ℤ)
    firstInputDelay := (jsRound firstInputDelay : ℤ)
    cumulativeLayoutShift := ((jsRound (cumulativeLayoutShift * 1000) : ℤ) : ℚ) / 1000
    speedIndex := (jsRound speedIndex : ℤ)
    totalBlockingTime := (jsRound totalBlockingTime : ℤ)
    totalResourceSize := (jsRound totalResourceSize : ℤ)
    imageResourceSize := (jsRound imageResourceSize : ℤ)
    scriptResourceSize := (jsRound scriptResourceSize : ℤ)
    stylesheetResourceSize := (jsRound stylesheetResourceSize : ℤ)
    fontResourceSize := (jsRound fontResourceSize : ℤ)
    resourceCounts :=
      { images := (cImages : ℚ)
        scripts := (cScripts : ℚ)
        stylesheets := (cStylesheets : ℚ)
        fonts := (cFonts : ℚ)
        videos := (cVideos : ℚ)
        total := ((cImages + cScripts + cStylesheets + cFonts + cVideos : ℤ) : ℚ) }
    unusedCssBytes := (jsRound (stylesheetResourceSize * (sr 20 * 0.3)) : ℤ)
    unusedJsBytes := (jsRound (scriptResourceSize * (sr 21 * 0.25)) : ℤ)
    unoptimizedImageBytes := (jsRound (imageResourceSize * (sr 22 * 0.4)) : ℤ)
    serverResponseTime := (jsRound (sr 23 * 500 + 100) : ℤ)
    renderBlockingResources := ((⌊sr 24 * 8⌋ + 2 : ℤ) : ℚ)
    domSize := ((⌊sr 25 * 1000⌋ + 500 : ℤ) : ℚ)
    criticalRequestChains := ((⌊sr 26 * 5⌋ + 2 : ℤ) : ℚ) }

/-! The emissions estimator, `lib/co2-calculator.ts`.  The third-party
`@tgwf/co2` library is modelled abstractly: its `perByte`/`perVisit` calls
return either a bare number or a structured object (`CO2Value`), and the
calculator is parameterized over the library (`CO2Model`). -/

/-- A value returned by a `co2Instance.perByte` / `perVisit` call: either
a bare number (`typeof === "number"`) or a structured result object with a
total, an optional rating and breakdown components. -/
inductive CO2Value where
  | num (v : ℚ)
  | obj (total : ℚ) (rating : Option String)
      (dataCenterCO2 networkCO2 consumerDeviceCO2 totalOperationalCO2e totalEmbodiedCO2e : ℚ)

/-- The `total` grams of a `CO2Value` (`typeof x === "number" ? x : x.total`). -/
def CO2Value.grams : CO2Value → ℚ
  | .num v => v
  | .obj t _ _ _ _ _ _ => t

/-- The rating carried by a `CO2Value`, if it is an object that has one
(`typeof x === "object" && x.rating`). -/
def CO2Value.ratingField : CO2Value → Option String
  | .num _ => none
  | .obj _ r _ _ _ _ _ => r

/-- Abstract model of the `@tgwf/co2` instance: `perByte(bytes, green)`
and `perVisit(bytes, green, visitOptions)` (the visit-mix options are the
fixed constants of the source, folded into the function). -/
structure CO2Model where
  perByte : ℚ → Bool → CO2Value
  perVisit : ℚ → Bool → CO2Value

/-- Breakdown record of `CO2CalculationResult.breakdown`. -/
structure CO2Breakdown where
  dataCenterCO2 : ℚ
  networkCO2 : ℚ
  deviceCO2 : ℚ
  operationalCO2 : ℚ
  embodiedCO2 : ℚ

/-- `CO2CalculationResult.greenHostingImpact`. -/
structure GreenHostingImpact where
  currentCO2 : ℚ
  withGreenHosting : ℚ
  potentialSavings : ℚ
  savingsPercentage : ℚ

/-- `CO2CalculationResult.optimizationPotential`. -/
structure OptimizationPotential where
  unusedCssSavings : ℚ
  unusedJsSavings : ℚ
  imageOptimizationSavings : ℚ
  totalPotentialSavings : ℚ

/-- Interface `CO2CalculationResult` from `lib/co2-calculator.ts`. -/
structure CO2CalculationResult where
  totalCO2 : ℚ
  co2PerVisit : ℚ
  co2Rating : String
  breakdown : CO2Breakdown
  greenHostingImpact : GreenHostingImpact
  optimizationPotential : OptimizationPotential

/-- `CO2Calculator.calculateRating`: fixed grams thresholds of the
Sustainable Web Design v4 rating scale. -/
def calculateRating (co2Grams : ℚ) : String :=
  if co2Grams ≤ 0.095 then "A+"
  else if co2Grams ≤ 0.186 then "A"
  else if co2Grams ≤ 0.341 then "B"
  else if co2Grams ≤ 0.493 then "C"
  else if co2Grams ≤ 0.656 then "D"
  else if co2Grams ≤ 0.846 then "E"
  else "F"

/-- `CO2Calculator.getRatingBonus`: score bonus per letter rating
(defaults to 0 for an unknown rating). -/
def getRatingBonus (rating : String) : ℚ :=
  if rating = "A+" then 10
  else if rating = "A" then 8
  else if rating = "B" then 5
  else if rating = "C" then 2
  else if rating = "D" then 0
  else if rating = "E" then -5
  else if rating = "F" then -10
  else 0

/-- `CO2Calculator.calculateGreenHostingImpact`: CO2 under the current
hosting flag vs forced green hosting; the percentage is guarded by
`current > 0 ? ... : 0`. -/
def calculateGreenHostingImpact (m : CO2Model) (bytesTransferred : ℚ)
    (isCurrentlyGreen : Bool) : GreenHostingImpact :=
  let current := (m.perByte bytesTransferred isCurrentlyGreen).grams
  let green := (m.perByte bytesTransferred true).grams
  let potentialSavings := current - green
  let savingsPercentage := if current > 0 then potentialSavings / current * 100 else 0
  { currentCO2 := current
    withGreenHosting := green
    potentialSavings := potentialSavings
    savingsPercentage := savingsPercentage }

/-- `CO2Calculator.calculateOptimizationPotential`: CO2 grams of the
unused/unoptimized byte counts, each run back through `perByte` with
green hosting assumed false. -/
def calculateOptimizationPotential (m : CO2Model) (d : PageSpeedData) : OptimizationPotential :=
  let cssValue := (m.perByte d.unusedCssBytes false).grams
  let jsValue := (m.perByte d.unusedJsBytes false).grams
  let imageValue := (m.perByte d.unoptimizedImageBytes false).grams
  { unusedCssSavings := cssValue
    unusedJsSavings := jsValue
    imageOptimizationSavings := imageValue
    totalPotentialSavings := cssValue + jsValue + imageValue }

/-- `CO2Calculator.calculateCO2FromPageSpeed`: total and per-visit grams
for `totalResourceSize` bytes, breakdown when the library returns an
object, and the rating taken from the library result when present, else
computed by `calculateRating` applied to `totalCO2` (the per-byte total). -/
def calculateCO2FromPageSpeed (m : CO2Model) (d : PageSpeedData)
    (isGreenHosting : Bool) : CO2CalculationResult :=
  let bytesTransferred := d.totalResourceSize
  let co2PerByte := m.perByte bytesTransferred isGreenHosting
  let co2PerVisit := m.perVisit bytesTransferred isGreenHosting
  let breakdown : CO2Breakdown :=
    match co2PerByte with
    | .num _ => ⟨0, 0, 0, 0, 0⟩
    | .obj _ _ dc nw dev op emb => ⟨dc, nw, dev, op, emb⟩
  let totalCO2 := co2PerByte.grams
  let visitCO2 := co2PerVisit.grams
  let rating :=
    match co2PerByte.ratingField with
    | some r => r
    | none => calculateRating totalCO2
  { totalCO2 := totalCO2
    co2PerVisit := visitCO2
    co2Rating := rating
    breakdown := breakdown
    greenHostingImpact := calculateGreenHostingImpact m bytesTransferred isGreenHosting
    optimizationPotential := calculateOptimizationPotential m d }

/-- `CO2Calculator.calculateEnergyEfficiencyScore` (richer path). -/
def calculateEnergyEfficiencyScore (d : PageSpeedData) : ℤ :=
  let s : ℚ := 100
  let s : ℚ :=
    if d.largestContentfulPaint > 4000 then s - 25
    else if d.largestContentfulPaint > 2500 then s - 15
    else if d.largestContentfulPaint > 1500 then s - 5
    else s
  let s : ℚ :=
    if d.totalBlockingTime > 300 then s - 20
    else if d.totalBlockingTime > 150 then s - 10
    else s
  let totalSizeMB := d.totalResourceSize / (1024 * 1024)
  let s : ℚ :=
    if totalSizeMB > 3 then s - 20
    else if totalSizeMB > 2 then s - 10
    else if totalSizeMB > 1 then s - 5
    else s
  let s : ℚ := if d.performanceScore > 90 then s + 5 else s
  clampScore (jsRound s)

/-- `CO2Calculator.calculateCarbonFootprintScore` (richer path).  The
optimization-savings percentage divides by `totalCO2`; in ℚ a division by
zero yields 0, matching the penalty-free outcome of the source only when
the comparison against the thresholds fails. -/
def calculateCarbonFootprintScoreAdvanced (co2Data : CO2CalculationResult) : ℤ :=
  let s : ℚ := 100
  let co2PerVisit := co2Data.co2PerVisit
  let s : ℚ :=
    if co2PerVisit > 1 then s - min 40 ((co2PerVisit - 1) * 30)
    else if co2PerVisit > 0.5 then s - min 20 ((co2PerVisit - 0.5) * 20)
    else s
  let s : ℚ := if co2Data.greenHostingImpact.savingsPercentage > 0 then s + 10 else s
  let optimizationSavingsPercent :=
    co2Data.optimizationPotential.totalPotentialSavings / co2Data.totalCO2 * 100
  let s : ℚ :=
    if optimizationSavingsPercent > 30 then s - 15
    else if optimizationSavingsPercent > 15 then s - 8
    else s
  let s : ℚ := s + getRatingBonus co2Data.co2Rating
  clampScore (jsRound s)

/-- `CO2Calculator.calculateResourceOptimizationScore` (richer path).
The unused-percents divide by `totalResourceSize` and
`imageResourceSize`; in ℚ a division by zero yields 0 (no penalty). -/
def calculateResourceOptimizationScore (d : PageSpeedData) : ℤ :=
  let s : ℚ := 100
  let totalSize := d.totalResourceSize
  let unusedCssPercent := d.unusedCssBytes / totalSize * 100
  let unusedJsPercent := d.unusedJsBytes / totalSize * 100
  let s : ℚ :=
    if unusedCssPercent > 20 then s - 15
    else if unusedCssPercent > 10 then s - 8
    else s
  let s : ℚ :=
    if unusedJsPercent > 25 then s - 20
    else if unusedJsPercent > 15 then s - 10
    else s
  let unoptimizedImagePercent := d.unoptimizedImageBytes / d.imageResourceSize * 100
  let s : ℚ :=
    if unoptimizedImagePercent > 30 then s - 15
    else if unoptimizedImagePercent > 15 then s - 8
    else s
  let s : ℚ :=
    if d.renderBlockingResources > 10 then s - 15
    else if d.renderBlockingResources > 5 then s - 8
    else s
  let s : ℚ :=
    if d.domSize > 1500 then s - 10
    else if d.domSize > 1000 then s - 5
    else s
  let s : ℚ := if d.bestPracticesScore > 90 then s + 5 else s
  clampScore (jsRound s)

/-- Interface `SustainabilityMetrics` from `lib/co2-calculator.ts`. -/
structure SustainabilityMetrics where
  energyEfficiency : ℤ
  carbonFootprint : ℤ
  resourceOptimization : ℤ
  overallSustainability : ℤ
  co2Data : CO2CalculationResult

/-- `CO2Calculator.calculateSustainabilityMetrics`: the three richer-path
sub-scores and the weighted overall score
(0.25 energy + 0.35 carbon + 0.25 resources + 0.15 performance). -/
def calculateSustainabilityMetrics (m : CO2Model) (d : PageSpeedData)
    (isGreenHosting : Bool) : SustainabilityMetrics :=
  let co2Data := calculateCO2FromPageSpeed m d isGreenHosting
  let energyEfficiency := calculateEnergyEfficiencyScore d
  let carbonFootprint := calculateCarbonFootprintScoreAdvanced co2Data
  let resourceOptimization := calculateResourceOptimizationScore d
  let overallSustainability := jsRound
    ((energyEfficiency : ℚ) * 0.25 + (carbonFootprint : ℚ) * 0.35 +
      (resourceOptimization : ℚ) * 0.25 + d.performanceScore * 0.15)
  { energyEfficiency := energyEfficiency
    carbonFootprint := carbonFootprint
    resourceOptimization := resourceOptimization
    overallSustainability := overallSustainability
    co2Data := co2Data }

/-- Decimal digits of `n` left-padded with zeros to width `d`. -/
def natPadLeft (n d : ℕ) : String :=
  let s := Nat.repr n
  if d ≤ s.length then s else String.mk (List.replicate (d - s.length) '0') ++ s

/-- Model of `Number.prototype.toFixed(d)` for rationals: round the
magnitude to `d` decimal places (half up) and render with exactly `d`
fraction digits. -/
def ratToFixed (q : ℚ) (d : ℕ) : String :=
  let sign := if q < 0 then "-" else ""
  let scaled := (jsRound (|q| * (10 : ℚ) ^ d)).toNat
  if d = 0 then sign ++ Nat.repr scaled
  else sign ++ Nat.repr (scaled / 10 ^ d) ++ "." ++ natPadLeft (scaled % 10 ^ d) d

/-- Model of JavaScript number-to-string coercion inside template
literals.  Exact for integer values (the only values the producers
interpolate raw: they are `Math.round`/`Math.floor` results); a
non-integer is rendered with three decimals as a stand-in for the JS
shortest-round-trip form.  No theorem depends on the non-integer case. -/
def jsNumToString (q : ℚ) : String :=
  if q.den = 1 then
    (if q.num < 0 then "-" ++ Nat.repr q.num.natAbs else Nat.repr q.num.natAbs)
  else ratToFixed q 3

/-- Model of `new URL(url).hostname` for `http`/`https` URLs: drop the
scheme, take the authority up to the first `/`, `:`, `?` or `#`,
lower-cased (the URL parser canonicalizes the host); `none` when the URL
has no such scheme or an empty host (`new URL` throws). -/
def urlHostname (url : String) : Option String :=
  let rest? : Option String :=
    if strStartsWith url "https://" then some (strDrop url 8)
    else if strStartsWith url "http://" then some (strDrop url 7)
    else none
  match rest? with
  | none => none
  | some rest =>
    let hostChars := rest.data.takeWhile fun c => !(c == '/' || c == ':' || c == '?' || c == '#')
    if hostChars.isEmpty then none else some (strLower (String.mk hostChars))

/-- The green-hosting allow-list of `WebsiteAnalyzer.checkGreenHosting`
(basic-scrape path): five entries, no `netlify.com`. -/
def basicGreenHosts : List String :=
  ["greengeeks.com", "hostgator.com", "dreamhost.com", "a2hosting.com", "siteground.com"]

/-- The green-hosting allow-list of `checkGreenHosting` in
`app/api/ws-report/route.ts` (richer path): ten entries including
`netlify.com`. -/
def routeGreenHosts : List String :=
  ["greengeeks.com", "hostgator.com", "dreamhost.com", "a2hosting.com", "siteground.com",
   "netlify.com", "vercel.com", "github.io", "gitlab.io", "surge.sh"]

/-- `WebsiteAnalyzer.checkGreenHosting`: substring membership of the
hostname in the five-entry allow-list; `false` when URL parsing throws. -/
def analyzerCheckGreenHosting (url : String) : Bool :=
  match urlHostname url with
  | none => false
  | some hostname => basicGreenHosts.any fun host => strIncludes hostname host

/-- `checkGreenHosting` from `app/api/ws-report/route.ts` (used by the
richer-path report): substring membership of the lower-cased hostname in
the ten-entry allow-list. -/
def checkGreenHosting (url : String) : Bool :=
  match urlHostname url with
  | none => false
  | some hostname => routeGreenHosts.any fun host => strIncludes (strLower hostname) host

/-! Recommendation templates of `CO2Calculator.generateRecommendations`
(richer path), in push order. -/

def recSwitchGreen (pct grams : ℚ) : String :=
  "Switch to green hosting to reduce CO2 emissions by " ++
    (ratToFixed pct 1 ++ ("% (" ++ (ratToFixed grams 3 ++ "g CO2 per visit)")))

def recHighCarbon (grams : ℚ) : String :=
  "High carbon footprint detected (" ++
    (ratToFixed grams 3 ++
      "g CO2 per visit). Consider reducing total page size and optimizing resources.")

def recLcp (seconds : ℚ) : String :=
  "Improve Largest Contentful Paint (currently " ++
    (ratToFixed seconds 1 ++ "s) by optimizing images and critical resources")

def recTbt (ms : ℚ) : String :=
  "Reduce Total Blocking Time (currently " ++
    (jsNumToString ms ++ "ms) by optimizing JavaScript execution")

def recLargeSize (mb : ℚ) : String :=
  "Large total resource size (" ++
    (ratToFixed mb 1 ++ "MB). Consider implementing lazy loading and resource optimization")

def recUnusedCss (kb grams : ℚ) : String :=
  "Remove unused CSS (" ++
    (ratToFixed kb 0 ++ ("KB) to save " ++ (ratToFixed grams 3 ++ "g CO2 per visit")))

def recUnusedJs (kb grams : ℚ) : String :=
  "Remove unused JavaScript (" ++
    (ratToFixed kb 0 ++ ("KB) to save " ++ (ratToFixed grams 3 ++ "g CO2 per visit")))

def recOptImages (kb grams : ℚ) : String :=
  "Optimize images (" ++
    (ratToFixed kb 0 ++
      ("KB potential savings) to save " ++ (ratToFixed grams 3 ++ "g CO2 per visit")))

def recRenderBlocking (count : ℚ) : String :=
  "Reduce render-blocking resources (" ++
    (jsNumToString count ++
      " detected) by inlining critical CSS and deferring non-critical JavaScript")

def recServerTime (ms : ℚ) : String :=
  "Improve server response time (currently " ++
    (jsNumToString ms ++ "ms) by optimizing backend performance and using a CDN")

def recFid (ms : ℚ) : String :=
  "Reduce First Input Delay (" ++
    (jsNumToString ms ++
      "ms) by optimizing JavaScript execution and using web workers for heavy tasks")

def recSignificant (grams : ℚ) : String :=
  "Significant optimization potential detected: " ++
    (ratToFixed grams 3 ++ "g CO2 savings possible per visit")

def recAdvCaching : String :=
  "Implement efficient caching strategies to reduce repeat data transfer"

def recAdvFormats : String :=
  "Use modern image formats (WebP, AVIF) and responsive images"

def recAdvWorker : String :=
  "Consider implementing a service worker for offline functionality"

def recCriticalRating : String :=
  "Critical: This website has a very high carbon footprint. Immediate optimization is recommended."

def recExcellentRating : String :=
  "Excellent: This website has a low carbon footprint. Continue monitoring and optimizing."

/-- `CO2Calculator.generateRecommendations` (richer path): threshold
rules push templated strings, then `slice(0, 12)`.  Note there is no
deduplication step on this path. -/
def generateRecommendationsAdvanced (metrics : SustainabilityMetrics)
    (d : PageSpeedData) : List String :=
  let co2Data := metrics.co2Data
  let recs : List String :=
    (if metrics.carbonFootprint < 70 then
      (if co2Data.greenHostingImpact.savingsPercentage > 20 then
        [recSwitchGreen co2Data.greenHostingImpact.savingsPercentage
          co2Data.greenHostingImpact.potentialSavings] else []) ++
      (if co2Data.co2PerVisit > 1 then [recHighCarbon co2Data.co2PerVisit] else [])
    else []) ++
    (if metrics.energyEfficiency < 70 then
      (if d.largestContentfulPaint > 2500 then
        [recLcp (d.largestContentfulPaint / 1000)] else []) ++
      (if d.totalBlockingTime > 200 then [recTbt d.totalBlockingTime] else []) ++
      (if d.totalResourceSize / (1024 * 1024) > 2 then
        [recLargeSize (d.totalResourceSize / (1024 * 1024))] else [])
    else []) ++
    (if metrics.resourceOptimization < 70 then
      (if d.unusedCssBytes > 50000 then
        [recUnusedCss (d.unusedCssBytes / 1024)
          co2Data.optimizationPotential.unusedCssSavings] else []) ++
      (if d.unusedJsBytes > 100000 then
        [recUnusedJs (d.unusedJsBytes / 1024)
          co2Data.optimizationPotential.unusedJsSavings] else []) ++
      (if d.unoptimizedImageBytes > 200000 then
        [recOptImages (d.unoptimizedImageBytes / 1024)
          co2Data.optimizationPotential.imageOptimizationSavings] else []) ++
      (if d.renderBlockingResources > 8 then
        [recRenderBlocking d.renderBlockingResources] else [])
    else []) ++
    (if d.performanceScore < 70 then
      (if d.serverResponseTime > 600 then [recServerTime d.serverResponseTime] else []) ++
      (if d.firstInputDelay > 100 then [recFid d.firstInputDelay] else [])
    else []) ++
    (if co2Data.optimizationPotential.totalPotentialSavings > co2Data.totalCO2 * 0.2 then
      [recSignificant co2Data.optimizationPotential.totalPotentialSavings] else []) ++
    [recAdvCaching, recAdvFormats, recAdvWorker] ++
    (if co2Data.co2Rating = "F" ∨ co2Data.co2Rating = "E" then [recCriticalRating]
     else if co2Data.co2Rating = "A+" ∨ co2Data.co2Rating = "A" then [recExcellentRating]
     else [])
  recs.take 12

/-- Disclaimer prepended on the richer path for simulated data. -/
def noteSimulatedPagespeed : String :=
  "Note: This analysis uses simulated PageSpeed data due to API limitations. For accurate results, provide a Google PageSpeed Insights API key."

/-- Disclaimer prepended on the richer path for real PageSpeed data. -/
def notePagespeedReal : String :=
  "✓ Analysis powered by Google PageSpeed Insights and CO2.js for accurate carbon footprint calculations."

/-- The report built by `generateAdvancedSustainabilityReport`. -/
structure AdvancedReport where
  overallScore : ℤ
  energyEfficiency : ℤ
  carbonFootprint : ℤ
  resourceOptimization : ℤ
  accessibility : ℚ
  recommendations : List String
  analysisMethod : AnalysisMethod
  co2Data : CO2CalculationResult

/-- `generateAdvancedSustainabilityReport` from
`app/api/ws-report/route.ts`: richer-path report assembly; the method
disclaimer is `unshift`ed after the recommendation list is capped. -/
def generateAdvancedSustainabilityReport (m : CO2Model) (d : PageSpeedData)
    (meth : AnalysisMethod) : AdvancedReport :=
  let isGreenHosting := checkGreenHosting d.url
  let metrics := calculateSustainabilityMetrics m d isGreenHosting
  let recs0 := generateRecommendationsAdvanced metrics d
  let recs :=
    match meth with
    | .simulated => noteSimulatedPagespeed :: recs0
    | .pagespeed => notePagespeedReal :: recs0
    | .basic => recs0
  { overallScore := metrics.overallSustainability
    energyEfficiency := metrics.energyEfficiency
    carbonFootprint := metrics.carbonFootprint
    resourceOptimization := metrics.resourceOptimization
    accessibility := d.accessibilityScore
    recommendations := recs
    analysisMethod := meth
    co2Data := metrics.co2Data }

/-! The report endpoint `POST` of `app/api/ws-report/route.ts`: the
four-step fallback chain inside `analysisPromise`, the value the promise
resolves with, and the final `NextResponse.json(result)` wrapping.  Each
data-source attempt is modelled as an `Except` value (its thrown error or
its result); the nested `try`/`catch` structure makes a later attempt
relevant only when every earlier one failed. -/

/-- Terminal error message of the all-producers-failed branch. -/
def unableToAnalyzeMsg : String :=
  "Unable to analyze website. Please try a different URL or check if the website is accessible."

/-- What the fallback chain settled on. -/
inductive ChainOutcome where
  | pagespeedData (meth : AnalysisMethod) (d : PageSpeedData)
  | websiteData (meth : AnalysisMethod) (w : WebsiteAnalysis)
  | allFailed

/-- The nested `try`/`catch` fallback chain: real PageSpeed audit, then
simulated PageSpeed data, then basic scrape, then simulated basic data;
each later attempt is consulted only after the previous failed. -/
def analysisChain (a1 a2 : Except String PageSpeedData)
    (a3 a4 : Except String WebsiteAnalysis) : ChainOutcome :=
  match a1 with
  | .ok d => .pagespeedData .pagespeed d
  | .error _ =>
    match a2 with
    | .ok d => .pagespeedData .simulated d
    | .error _ =>
      match a3 with
      | .ok w => .websiteData .basic w
      | .error _ =>
        match a4 with
        | .ok w => .websiteData .simulated w
        | .error _ => .allFailed

/-- A report together with which assembly function built it. -/
inductive ReportValue where
  | advanced (r : AdvancedReport)
  | basicReport (r : BasicReport)

/-- The value the inner `analysisPromise` resolves with: either the
`choices`/`message`/`content` envelope around a report, or — in the
all-failed branch — a `NextResponse` object already carrying status 500
and the error message (returned from inside the async function, not from
the `POST` handler). -/
inductive PromiseValue where
  | envelope (r : ReportValue)
  | errorResponse (status : ℕ) (errorMsg : String)

/-- Builds the promise value from the chain outcome: `pageSpeedData`
feeds `generateAdvancedSustainabilityReport`, `websiteData` feeds
`generateSustainabilityReport`, and the all-failed branch builds the
500 `NextResponse`. -/
def analysisPromiseValue (m : CO2Model) : ChainOutcome → PromiseValue
  | .pagespeedData meth d => .envelope (.advanced (generateAdvancedSustainabilityReport m d meth))
  | .websiteData meth w => .envelope (.basicReport (generateSustainabilityReport w meth))
  | .allFailed => .errorResponse 500 unableToAnalyzeMsg

/-- Body of the HTTP response the handler finally sends. -/
inductive ResponseBody where
  | reportEnvelope (r : ReportValue)
  | emptyObject
deriving Inhabited

/-- An HTTP response: status code and JSON body. -/
structure HttpResponse where
  status : ℕ
  body : ResponseBody

/-- `NextResponse.json(result)` applied to the resolved promise value
(route line 110), with no init argument, so always status 200.  When the
resolved value is itself a `NextResponse` (the all-failed branch),
`JSON.stringify` serializes it to an empty JSON object — a `Response` has
no own enumerable properties — and its 500 status and error body are
discarded. -/
def nextResponseJsonOf : PromiseValue → HttpResponse
  | .envelope r => ⟨200, .reportEnvelope r⟩
  | .errorResponse _ _ => ⟨200, .emptyObject⟩

/-- End-to-end result of the `POST` handler (no overall timeout) as a
function of the four data-source attempts. -/
def postHandlerResult (m : CO2Model) (a1 a2 : Except String PageSpeedData)
    (a3 a4 : Except String WebsiteAnalysis) : HttpResponse :=
  nextResponseJsonOf (analysisPromiseValue m (analysisChain a1 a2 a3 a4))

/-! Concrete inputs used by counterexamples and witnesses. -/

/-- A `WebsiteAnalysis` whose accessibility score lies outside `[0,100]`;
every other field is benign. -/
def cexC1 : WebsiteAnalysis :=
  { url := "https://example.com", loadTime := 0, pageSize := 0, imageCount := 0,
    scriptCount := 0, cssCount := 0, fontCount := 0, videoCount := 0,
    accessibilityScore := 200, seoScore := 0, performanceScore := 0,
    carbonFootprint := 0, greenHosting := false, compressionEnabled := false,
    cdnEnabled := false }

/-- A heavy, unoptimized `WebsiteAnalysis` that fires enough
recommendation rules to fill the recommendation cap. -/
def cexC2 : WebsiteAnalysis :=
  { url := "https://heavy.test", loadTime := 5000, pageSize := 3000, imageCount := 20,
    scriptCount := 15, cssCount := 8, fontCount := 5, videoCount := 5,
    accessibilityScore := 50, seoScore := 50, performanceScore := 50,
    carbonFootprint := 5, greenHosting := false, compressionEnabled := false,
    cdnEnabled := false }

/-- A concrete `PageSpeedData` record with in-range category scores. -/
def exPageSpeed : PageSpeedData :=
  { url := "https://example.com", performanceScore := 80, accessibilityScore := 90,
    bestPracticesScore := 85, seoScore := 88, firstContentfulPaint := 1000,
    largestContentfulPaint := 2000, firstInputDelay := 50,
    cumulativeLayoutShift := 0.05, speedIndex := 1500, totalBlockingTime := 100,
    totalResourceSize := 1000000, imageResourceSize := 400000,
    scriptResourceSize := 300000, stylesheetResourceSize := 100000,
    fontResourceSize := 50000, resourceCounts := ⟨10, 8, 3, 2, 0, 23⟩,
    unusedCssBytes := 20000, unusedJsBytes := 50000,
    unoptimizedImageBytes := 100000, serverResponseTime := 200,
    renderBlockingResources := 4, domSize := 800, criticalRequestChains := 3 }

/-- A concrete linear CO2 library model: grams proportional to bytes,
green hosting cheaper. -/
def exModel : CO2Model :=
  { perByte := fun b g => .num (if g then b * 3 / 10000000 else b * 4 / 10000000)
    perVisit := fun b _ => .num (b * 3 / 10000000) }

/-- A CO2 library model whose per-byte total (0.9 g) and per-visit total
(0.05 g) fall in different rating buckets, supplying no rating itself. -/
def cexC7Model : CO2Model :=
  { perByte := fun _ _ => .num (9 / 10)
    perVisit := fun _ _ => .num (1 / 20) }

/-- A concrete ambient-JS environment. -/
def exEnv : JsEnv := { mathSin := fun _ => 1 / 3, mathRandom := fun _ => 0 }

/-- Discriminating key of a recommendation string: its first 17
characters.  Every richer-path template has a constant prefix of at least
17 characters that is distinct across templates, so the key of a
templated string does not depend on the interpolated values. -/
def recKey (s : String) : List Char := s.data.take 17

/-- Keys of the 17 strings the richer-path recommendation generator can
push, in push order. -/
def advKeys : List (List Char) :=
  [recKey "Switch to green hosting to reduce CO2 emissions by ",
   recKey "High carbon footprint detected (",
   recKey "Improve Largest Contentful Paint (currently ",
   recKey "Reduce Total Blocking Time (currently ",
   recKey "Large total resource size (",
   recKey "Remove unused CSS (",
   recKey "Remove unused JavaScript (",
   recKey "Optimize images (",
   recKey "Reduce render-blocking resources (",
   recKey "Improve server response time (currently ",
   recKey "Reduce First Input Delay (",
   recKey "Significant optimization potential detected: ",
   recKey recAdvCaching, recKey recAdvFormats, recKey recAdvWorker,
   recKey recCriticalRating, recKey recExcellentRating]

set_option maxRecDepth 100000

/-! General helper lemmas. -/

theorem clampScore_bounds (n : ℤ) : 0 ≤ clampScore n ∧ clampScore n ≤ 100 :=
  ⟨le_max_left 0 _, max_le (by norm_num) (min_le_left _ _)⟩

theorem jsRound_bounds {q : ℚ} (h0 : 0 ≤ q) (h1 : q ≤ 100) :
    0 ≤ jsRound q ∧ jsRound q ≤ 100 := by
  unfold jsRound
  constructor
  · exact Int.le_floor.mpr (by push_cast; linarith)
  · have h2 : ⌊q + (1 : ℚ) / 2⌋ ≤ ⌊(100 : ℚ) + 1 / 2⌋ := Int.floor_le_floor (by linarith)
    have h3 : ⌊(100 : ℚ) + 1 / 2⌋ = 100 := by norm_num
    omega

theorem overall_bound_basic {e c r : ℤ} {a : ℚ}
    (he : 0 ≤ e ∧ e ≤ 100) (hc : 0 ≤ c ∧ c ≤ 100) (hr : 0 ≤ r ∧ r ≤ 100)
    (ha0 : 0 ≤ a) (ha1 : a ≤ 100) :
    0 ≤ jsRound ((e : ℚ) * 0.25 + (c : ℚ) * 0.25 + (r : ℚ) * 0.25 + a * 0.25) ∧
      jsRound ((e : ℚ) * 0.25 + (c : ℚ) * 0.25 + (r : ℚ) * 0.25 + a * 0.25) ≤ 100 := by
  have q : (0.25 : ℚ) = 1 / 4 := by norm_num
  have he0 : (0 : ℚ) ≤ (e : ℚ) := by exact_mod_cast he.1
  have he1 : (e : ℚ) ≤ 100 := by exact_mod_cast he.2
  have hc0 : (0 : ℚ) ≤ (c : ℚ) := by exact_mod_cast hc.1
  have hc1 : (c : ℚ) ≤ 100 := by exact_mod_cast hc.2
  have hr0 : (0 : ℚ) ≤ (r : ℚ) := by exact_mod_cast hr.1
  have hr1 : (r : ℚ) ≤ 100 := by exact_mod_cast hr.2
  exact jsRound_bounds (by rw [q]; linarith) (by rw [q]; linarith)

theorem overall_bound_weighted {e c r : ℤ} {p : ℚ}
    (he : 0 ≤ e ∧ e ≤ 100) (hc : 0 ≤ c ∧ c ≤ 100) (hr : 0 ≤ r ∧ r ≤ 100)
    (hp0 : 0 ≤ p) (hp1 : p ≤ 100) :
    0 ≤ jsRound ((e : ℚ) * 0.25 + (c : ℚ) * 0.35 + (r : ℚ) * 0.25 + p * 0.15) ∧
      jsRound ((e : ℚ) * 0.25 + (c : ℚ) * 0.35 + (r : ℚ) * 0.25 + p * 0.15) ≤ 100 := by
  have q1 : (0.25 : ℚ) = 1 / 4 := by norm_num
  have q2 : (0.35 : ℚ) = 7 / 20 := by norm_num
  have q3 : (0.15 : ℚ) = 3 / 20 := by norm_num
  have he0 : (0 : ℚ) ≤ (e : ℚ) := by exact_mod_cast he.1
  have he1 : (e : ℚ) ≤ 100 := by exact_mod_cast he.2
  have hc0 : (0 : ℚ) ≤ (c : ℚ) := by exact_mod_cast hc.1
  have hc1 : (c : ℚ) ≤ 100 := by exact_mod_cast hc.2
  have hr0 : (0 : ℚ) ≤ (r : ℚ) := by exact_mod_cast hr.1
  have hr1 : (r : ℚ) ≤ 100 := by exact_mod_cast hr.2
  exact jsRound_bounds (by rw [q1, q2, q3]; linarith) (by rw [q1, q2, q3]; linarith)

/-- C1 (counterexample): the claim asserts every sub-score and the
overall score lie in `[0,100]` for every input, but for an input with
accessibility score 200 the basic-path report has accessibility
sub-score 200 and overall score 125. -/
theorem c1_counterexample :
    (generateSustainabilityReport cexC1 .basic).accessibility = 200 ∧
    (generateSustainabilityReport cexC1 .basic).overallScore = 125 ∧
    ¬ ((generateSustainabilityReport cexC1 .basic).accessibility ≤ 100) ∧
    ¬ ((generateSustainabilityReport cexC1 .basic).overallScore ≤ 100) := by
  have hE : calculateEnergyEfficiency cexC1 = 100 := by
    unfold calculateEnergyEfficiency cexC1; norm_num [jsRound, clampScore]
  have hC : calculateCarbonFootprintScore cexC1 = 100 := by
    unfold calculateCarbonFootprintScore cexC1; norm_num [jsRound, clampScore]
  have hR : calculateResourceOptimization cexC1 = 100 := by
    unfold calculateResourceOptimization cexC1; norm_num [jsRound, clampScore]
  have hOverall : (generateSustainabilityReport cexC1 .basic).overallScore = 125 := by
    show jsRound ((calculateEnergyEfficiency cexC1 : ℚ) * 0.25 +
      (calculateCarbonFootprintScore cexC1 : ℚ) * 0.25 +
      (calculateResourceOptimization cexC1 : ℚ) * 0.25 +
      cexC1.accessibilityScore * 0.25) = 125
    rw [hE, hC, hR]
    show jsRound (((100 : ℤ) : ℚ) * 0.25 + ((100 : ℤ) : ℚ) * 0.25 +
      ((100 : ℤ) : ℚ) * 0.25 + (200 : ℚ) * 0.25) = 125
    norm_num [jsRound]
  refine ⟨rfl, hOverall, ?_, ?_⟩
  · show ¬ ((200 : ℚ) ≤ 100)
    norm_num
  · rw [hOverall]
    norm_num

/-- C1 (amended): on both paths the three computed sub-scores (energy
efficiency, carbon footprint, resource optimization) are integers clamped
to `[0,100]`; the accessibility sub-score is passed through from the
input unmodified, and the rounded overall score is not clamped, so the
accessibility and overall values lie in `[0,100]` exactly when the input
accessibility score (basic path) resp. upstream performance score (richer
path) does. -/
theorem c1_scores_clamped_amended (w : WebsiteAnalysis) (mw : AnalysisMethod)
    (m : CO2Model) (p : PageSpeedData) (mp : AnalysisMethod) :
    (0 ≤ (generateSustainabilityReport w mw).energyEfficiency ∧
      (generateSustainabilityReport w mw).energyEfficiency ≤ 100) ∧
    (0 ≤ (generateSustainabilityReport w mw).carbonFootprint ∧
      (generateSustainabilityReport w mw).carbonFootprint ≤ 100) ∧
    (0 ≤ (generateSustainabilityReport w mw).resourceOptimization ∧
      (generateSustainabilityReport w mw).resourceOptimization ≤ 100) ∧
    ((generateSustainabilityReport w mw).accessibility = w.accessibilityScore) ∧
    (0 ≤ w.accessibilityScore → w.accessibilityScore ≤ 100 →
      0 ≤ (generateSustainabilityReport w mw).overallScore ∧
        (generateSustainabilityReport w mw).overallScore ≤ 100) ∧
    (0 ≤ (generateAdvancedSustainabilityReport m p mp).energyEfficiency ∧
      (generateAdvancedSustainabilityReport m p mp).energyEfficiency ≤ 100) ∧
    (0 ≤ (generateAdvancedSustainabilityReport m p mp).carbonFootprint ∧
      (generateAdvancedSustainabilityReport m p mp).carbonFootprint ≤ 100) ∧
    (0 ≤ (generateAdvancedSustainabilityReport m p mp).resourceOptimization ∧
      (generateAdvancedSustainabilityReport m p mp).resourceOptimization ≤ 100) ∧
    ((generateAdvancedSustainabilityReport m p mp).accessibility = p.accessibilityScore) ∧
    (0 ≤ p.performanceScore → p.performanceScore ≤ 100 →
      0 ≤ (generateAdvancedSustainabilityReport m p mp).overallScore ∧
        (generateAdvancedSustainabilityReport m p mp).overallScore ≤ 100) := by
  refine ⟨clampScore_bounds _, clampScore_bounds _, clampScore_bounds _, rfl, ?_,
    clampScore_bounds _, clampScore_bounds _, clampScore_bounds _, rfl, ?_⟩
  · intro h0 h1
    exact overall_bound_basic (clampScore_bounds _) (clampScore_bounds _)
      (clampScore_bounds _) h0 h1
  · intro h0 h1
    exact overall_bound_weighted (clampScore_bounds _) (clampScore_bounds _)
      (clampScore_bounds _) h0 h1

/-- C1 (witness): the amended theorem applied at concrete in-range
inputs. -/
theorem c1_amended_witness :
    (0 ≤ cexC2.accessibilityScore ∧ cexC2.accessibilityScore ≤ 100) ∧
    (0 ≤ exPageSpeed.performanceScore ∧ exPageSpeed.performanceScore ≤ 100) ∧
    (0 ≤ (generateSustainabilityReport cexC2 .basic).overallScore ∧
      (generateSustainabilityReport cexC2 .basic).overallScore ≤ 100) ∧
    (0 ≤ (generateAdvancedSustainabilityReport exModel exPageSpeed .simulated).overallScore ∧
      (generateAdvancedSustainabilityReport exModel exPageSpeed .simulated).overallScore ≤ 100) := by
  have ha0 : (0 : ℚ) ≤ cexC2.accessibilityScore := by show (0 : ℚ) ≤ 50; norm_num
  have ha1 : cexC2.accessibilityScore ≤ 100 := by show (50 : ℚ) ≤ 100; norm_num
  have hp0 : (0 : ℚ) ≤ exPageSpeed.performanceScore := by show (0 : ℚ) ≤ 80; norm_num
  have hp1 : exPageSpeed.performanceScore ≤ 100 := by show (80 : ℚ) ≤ 100; norm_num
  have h := c1_scores_clamped_amended cexC2 .basic exModel exPageSpeed .simulated
  exact ⟨⟨ha0, ha1⟩, ⟨hp0, hp1⟩,
    h.2.2.2.2.1 ha0 ha1,
    h.2.2.2.2.2.2.2.2.2 hp0 hp1⟩

/-- C3: on the basic path the report's overall score is the rounded
equal-weight average of its four sub-score fields; on the richer path it
is the rounded 0.25/0.35/0.25/0.15 weighted sum of its three sub-score
fields and the upstream performance score; and the promise value built
from a chain outcome uses exactly the assembly function matching the
producer that supplied the data. -/
theorem c3_overall_score_formulas (w : WebsiteAnalysis) (mw : AnalysisMethod)
    (m : CO2Model) (p : PageSpeedData) (mp : AnalysisMethod) :
    ((generateSustainabilityReport w mw).overallScore =
      jsRound (((generateSustainabilityReport w mw).energyEfficiency : ℚ) * 0.25 +
        ((generateSustainabilityReport w mw).carbonFootprint : ℚ) * 0.25 +
        ((generateSustainabilityReport w mw).resourceOptimization : ℚ) * 0.25 +
        (generateSustainabilityReport w mw).accessibility * 0.25)) ∧
    ((generateAdvancedSustainabilityReport m p mp).overallScore =
      jsRound (((generateAdvancedSustainabilityReport m p mp).energyEfficiency : ℚ) * 0.25 +
        ((generateAdvancedSustainabilityReport m p mp).carbonFootprint : ℚ) * 0.35 +
        ((generateAdvancedSustainabilityReport m p mp).resourceOptimization : ℚ) * 0.25 +
        p.performanceScore * 0.15)) ∧
    (analysisPromiseValue m (.pagespeedData mp p) =
      .envelope (.advanced (generateAdvancedSustainabilityReport m p mp))) ∧
    (analysisPromiseValue m (.websiteData mw w) =
      .envelope (.basicReport (generateSustainabilityReport w mw))) :=
  ⟨rfl, rfl, rfl, rfl⟩

/-! Deduplication and sublist helper lemmas for the recommendation
invariants. -/

theorem dedupAux_subset (l : List String) : ∀ acc, dedupAux acc l ⊆ l := by
  induction l with
  | nil => intro acc; simp [dedupAux]
  | cons x xs ih =>
    intro acc y hy
    simp only [dedupAux] at hy
    split at hy
    · exact List.mem_cons_of_mem _ (ih acc hy)
    · rcases List.mem_cons.mp hy with h | h
      · exact h ▸ List.mem_cons_self x xs
      · exact List.mem_cons_of_mem _ (ih _ h)

theorem dedupAux_not_mem_acc (l : List String) :
    ∀ acc y, y ∈ dedupAux acc l → y ∉ acc := by
  induction l with
  | nil => intro acc y hy; simp [dedupAux] at hy
  | cons x xs ih =>
    intro acc y hy
    simp only [dedupAux] at hy
    split at hy
    · exact ih acc y hy
    · rcases List.mem_cons.mp hy with h | h
      · subst h; assumption
      · intro hacc
        exact ih _ y h (List.mem_cons_of_mem _ hacc)

theorem dedupAux_nodup (l : List String) : ∀ acc, (dedupAux acc l).Nodup := by
  induction l with
  | nil => intro acc; simp [dedupAux]
  | cons x xs ih =>
    intro acc
    simp only [dedupAux]
    split
    · exact ih acc
    · refine List.nodup_cons.mpr ⟨?_, ih _⟩
      intro hx
      exact dedupAux_not_mem_acc xs (x :: acc) x hx (List.mem_cons_self _ _)

theorem dedupFirst_nodup (l : List String) : (dedupFirst l).Nodup :=
  dedupAux_nodup l []

theorem dedupFirst_subset (l : List String) : dedupFirst l ⊆ l :=
  dedupAux_subset l []

theorem subset_ite {α : Type} (c : Prop) [Decidable c] {l m : List α} (h : l ⊆ m) :
    (if c then l else []) ⊆ m := by
  split
  · exact h
  · intro x hx; cases hx

theorem appendSubset {α : Type} {l₁ l₂ m₁ m₂ : List α} (h₁ : l₁ ⊆ m₁) (h₂ : l₂ ⊆ m₂) :
    l₁ ++ l₂ ⊆ m₁ ++ m₂ := by
  intro x hx
  rcases List.mem_append.mp hx with h | h
  · exact List.mem_append.mpr (Or.inl (h₁ h))
  · exact List.mem_append.mpr (Or.inr (h₂ h))

theorem generateRecommendations_subset (d : WebsiteAnalysis) (sc : BasicScores) :
    generateRecommendations d sc ⊆ allBasicRecs := by
  intro y hy
  have h1 : y ∈ dedupFirst _ := List.take_subset _ _ hy
  have h2 := dedupFirst_subset _ h1
  have hE : (if sc.energyEfficiency < 80 then
      (if d.loadTime > 2000 then [recLoadTime] else []) ++
      (if d.pageSize > 1000 then [recPageSize] else []) ++
      (if d.videoCount > 1 then [recVideos] else []) ++
      (if !d.compressionEnabled then [recCompression] else []) ++
      (if !d.cdnEnabled then [recCdn] else [])
    else []) ⊆ [recLoadTime, recPageSize, recVideos, recCompression, recCdn] :=
    subset_ite _ (appendSubset (appendSubset (appendSubset (appendSubset
      (subset_ite _ (List.Subset.refl _)) (subset_ite _ (List.Subset.refl _)))
      (subset_ite _ (List.Subset.refl _))) (subset_ite _ (List.Subset.refl _)))
      (subset_ite _ (List.Subset.refl _)))
  have hC : (if sc.carbonFootprint < 80 then
      (if !d.greenHosting then [recGreenHost] else []) ++
      (if d.pageSize > 1000 then [recReducePage] else []) ++
      (if d.videoCount > 0 then [recOptimizeVideo] else [])
    else []) ⊆ [recGreenHost, recReducePage, recOptimizeVideo] :=
    subset_ite _ (appendSubset (appendSubset
      (subset_ite _ (List.Subset.refl _)) (subset_ite _ (List.Subset.refl _)))
      (subset_ite _ (List.Subset.refl _)))
  have hR : (if sc.resourceOptimization < 80 then
      (if d.scriptCount > 10 then [recScripts] else []) ++
      (if d.cssCount > 5 then [recCss] else []) ++
      (if d.fontCount > 3 then [recFonts] else []) ++
      (if d.imageCount > 15 then [recImages] else [])
    else []) ⊆ [recScripts, recCss, recFonts, recImages] :=
    subset_ite _ (appendSubset (appendSubset (appendSubset
      (subset_ite _ (List.Subset.refl _)) (subset_ite _ (List.Subset.refl _)))
      (subset_ite _ (List.Subset.refl _))) (subset_ite _ (List.Subset.refl _)))
  have hA : (if sc.accessibility < 80 then [recA11yAlt, recA11yContrast, recA11yAria]
      else []) ⊆ [recA11yAlt, recA11yContrast, recA11yAria] :=
    subset_ite _ (List.Subset.refl _)
  exact appendSubset (appendSubset (appendSubset (appendSubset hE hC) hR) hA)
    (List.Subset.refl _) h2

theorem sublist_ite {α : Type} (c : Prop) [Decidable c] {l m : List α}
    (h : List.Sublist l m) : List.Sublist (if c then l else []) m := by
  split
  · exact h
  · exact List.nil_sublist m

theorem strData_append (s t : String) : (s ++ t).data = s.data ++ t.data := rfl

theorem recKey_append (p x : String) (h : 17 ≤ p.data.length) :
    recKey (p ++ x) = recKey p := by
  unfold recKey
  rw [strData_append]
  exact List.take_append_of_le_length h

theorem recKey_recSwitchGreen (a b : ℚ) : recKey (recSwitchGreen a b) =
    recKey "Switch to green hosting to reduce CO2 emissions by " :=
  recKey_append _ _ (by decide)

theorem recKey_recHighCarbon (a : ℚ) : recKey (recHighCarbon a) =
    recKey "High carbon footprint detected (" :=
  recKey_append _ _ (by decide)

theorem recKey_recLcp (a : ℚ) : recKey (recLcp a) =
    recKey "Improve Largest Contentful Paint (currently " :=
  recKey_append _ _ (by decide)

theorem recKey_recTbt (a : ℚ) : recKey (recTbt a) =
    recKey "Reduce Total Blocking Time (currently " :=
  recKey_append _ _ (by decide)

theorem recKey_recLargeSize (a : ℚ) : recKey (recLargeSize a) =
    recKey "Large total resource size (" :=
  recKey_append _ _ (by decide)

theorem recKey_recUnusedCss (a b : ℚ) : recKey (recUnusedCss a b) =
    recKey "Remove unused CSS (" :=
  recKey_append _ _ (by decide)

theorem recKey_recUnusedJs (a b : ℚ) : recKey (recUnusedJs a b) =
    recKey "Remove unused JavaScript (" :=
  recKey_append _ _ (by decide)

theorem recKey_recOptImages (a b : ℚ) : recKey (recOptImages a b) =
    recKey "Optimize images (" :=
  recKey_append _ _ (by decide)

theorem recKey_recRenderBlocking (a : ℚ) : recKey (recRenderBlocking a) =
    recKey "Reduce render-blocking resources (" :=
  recKey_append _ _ (by decide)

theorem recKey_recServerTime (a : ℚ) : recKey (recServerTime a) =
    recKey "Improve server response time (currently " :=
  recKey_append _ _ (by decide)

theorem recKey_recFid (a : ℚ) : recKey (recFid a) =
    recKey "Reduce First Input Delay (" :=
  recKey_append _ _ (by decide)

theorem recKey_recSignificant (a : ℚ) : recKey (recSignificant a) =
    recKey "Significant optimization potential detected: " :=
  recKey_append _ _ (by decide)

/-- The keys of the richer-path recommendation list form a sublist of the
fixed key list `advKeys`; in particular no template occurs twice. -/
theorem advRecs_keys_sublist (metrics : SustainabilityMetrics) (d : PageSpeedData) :
    List.Sublist ((generateRecommendationsAdvanced metrics d).map recKey) advKeys := by
  unfold generateRecommendationsAdvanced
  rw [List.map_take]
  refine (List.take_sublist _ _).trans ?_
  simp only [List.map_append, apply_ite (List.map recKey), List.map_cons, List.map_nil,
    recKey_recSwitchGreen, recKey_recHighCarbon, recKey_recLcp, recKey_recTbt,
    recKey_recLargeSize, recKey_recUnusedCss, recKey_recUnusedJs, recKey_recOptImages,
    recKey_recRenderBlocking, recKey_recServerTime, recKey_recFid, recKey_recSignificant]
  show List.Sublist _
    (([recKey "Switch to green hosting to reduce CO2 emissions by ",
       recKey "High carbon footprint detected ("] ++
      [recKey "Improve Largest Contentful Paint (currently ",
       recKey "Reduce Total Blocking Time (currently ",
       recKey "Large total resource size ("] ++
      [recKey "Remove unused CSS (", recKey "Remove unused JavaScript (",
       recKey "Optimize images (", recKey "Reduce render-blocking resources ("] ++
      [recKey "Improve server response time (currently ",
       recKey "Reduce First Input Delay ("] ++
      [recKey "Significant optimization potential detected: "] ++
      [recKey recAdvCaching, recKey recAdvFormats, recKey recAdvWorker]) ++
      [recKey recCriticalRating, recKey recExcellentRating])
  refine List.Sublist.append (List.Sublist.append (List.Sublist.append
    (List.Sublist.append (List.Sublist.append (List.Sublist.append
      ?_ ?_) ?_) ?_) ?_) (List.Sublist.refl _)) ?_
  · exact sublist_ite _ (List.Sublist.append
      (sublist_ite _ (List.Sublist.refl _)) (sublist_ite _ (List.Sublist.refl _)))
  · exact sublist_ite _ (List.Sublist.append (List.Sublist.append
      (sublist_ite _ (List.Sublist.refl _)) (sublist_ite _ (List.Sublist.refl _)))
      (sublist_ite _ (List.Sublist.refl _)))
  · exact sublist_ite _ (List.Sublist.append (List.Sublist.append (List.Sublist.append
      (sublist_ite _ (List.Sublist.refl _)) (sublist_ite _ (List.Sublist.refl _)))
      (sublist_ite _ (List.Sublist.refl _))) (sublist_ite _ (List.Sublist.refl _)))
  · exact sublist_ite _ (List.Sublist.append
      (sublist_ite _ (List.Sublist.refl _)) (sublist_ite _ (List.Sublist.refl _)))
  · exact sublist_ite _ (List.Sublist.refl _)
  · split
    · exact List.Sublist.cons₂ _ (List.nil_sublist _)
    · split
      · exact List.Sublist.cons _ (List.Sublist.refl _)
      · exact List.nil_sublist _

/-- C2 (counterexample): the claim caps the basic-path list at 10 entries
including the prepended disclaimer, but the disclaimer is `unshift`ed
after `slice(0, 10)`, so a heavy input yields 11 entries. -/
theorem c2_counterexample :
    (generateSustainabilityReport cexC2 .basic).recommendations.length = 11 ∧
    ¬ ((generateSustainabilityReport cexC2 .basic).recommendations.length ≤ 10) := by
  have hE : calculateEnergyEfficiency cexC2 = 55 := by
    unfold calculateEnergyEfficiency cexC2; norm_num [jsRound, clampScore]
  have hC : calculateCarbonFootprintScore cexC2 = 60 := by
    unfold calculateCarbonFootprintScore cexC2; norm_num [jsRound, clampScore]
  have hR : calculateResourceOptimization cexC2 = 48 := by
    unfold calculateResourceOptimization cexC2; norm_num [jsRound, clampScore]
  have hLen : (generateSustainabilityReport cexC2 .basic).recommendations.length = 11 := by
    show (noteBasicScrape :: generateRecommendations cexC2
      ⟨calculateEnergyEfficiency cexC2, calculateCarbonFootprintScore cexC2,
        calculateResourceOptimization cexC2, cexC2.accessibilityScore⟩).length = 11
    rw [hE, hC, hR]
    unfold generateRecommendations cexC2
    norm_num
    decide
  refine ⟨hLen, ?_⟩
  rw [hLen]
  norm_num

/-- C2 (amended): on both paths the recommendation list contains no
duplicate strings; on the basic path it is the deduplication (first seen
wins) of the pushed strings, capped at 10 before the disclaimer is
prepended, so at most 11 entries including the disclaimer; on the richer
path the pushed strings are pairwise distinct and capped at 12 before the
disclaimer is prepended, so at most 13 entries including the
disclaimer. -/
theorem c2_recommendations_amended (w : WebsiteAnalysis) (mw : AnalysisMethod)
    (m : CO2Model) (p : PageSpeedData) (mp : AnalysisMethod) :
    ((generateSustainabilityReport w mw).recommendations.Nodup) ∧
    ((generateSustainabilityReport w mw).recommendations.length ≤ 11) ∧
    ((generateAdvancedSustainabilityReport m p mp).recommendations.Nodup) ∧
    ((generateAdvancedSustainabilityReport m p mp).recommendations.length ≤ 13) := by
  have hTakeNodup : ∀ sc : BasicScores, (generateRecommendations w sc).Nodup :=
    fun sc => List.Nodup.sublist (List.take_sublist _ _) (dedupFirst_nodup _)
  have hAdvNodup : (generateRecommendationsAdvanced
      (calculateSustainabilityMetrics m p (checkGreenHosting p.url)) p).Nodup :=
    List.Nodup.of_map recKey
      (List.Nodup.sublist (advRecs_keys_sublist _ _) (by decide))
  refine ⟨?_, ?_, ?_, ?_⟩
  · cases mw with
    | pagespeed => exact hTakeNodup _
    | basic =>
      refine List.nodup_cons.mpr ⟨fun hmem => ?_, hTakeNodup _⟩
      exact (by decide : noteBasicScrape ∉ allBasicRecs)
        (generateRecommendations_subset _ _ hmem)
    | simulated =>
      refine List.nodup_cons.mpr ⟨fun hmem => ?_, hTakeNodup _⟩
      exact (by decide : noteSimulatedBasic ∉ allBasicRecs)
        (generateRecommendations_subset _ _ hmem)
  · cases mw with
    | pagespeed => exact le_trans (List.length_take_le _ _) (by norm_num)
    | basic =>
      show (noteBasicScrape :: _).length ≤ 11
      rw [List.length_cons]
      exact Nat.succ_le_succ (le_trans (List.length_take_le _ _) (by norm_num))
    | simulated =>
      show (noteSimulatedBasic :: _).length ≤ 11
      rw [List.length_cons]
      exact Nat.succ_le_succ (le_trans (List.length_take_le _ _) (by norm_num))
  · cases mp with
    | basic => exact hAdvNodup
    | pagespeed =>
      refine List.Nodup.of_map recKey (List.Nodup.sublist ?_
        (show (recKey notePagespeedReal :: advKeys).Nodup by decide))
      show List.Sublist (List.map recKey (notePagespeedReal :: _)) _
      rw [List.map_cons]
      exact List.Sublist.cons₂ _ (advRecs_keys_sublist _ _)
    | simulated =>
      refine List.Nodup.of_map recKey (List.Nodup.sublist ?_
        (show (recKey noteSimulatedPagespeed :: advKeys).Nodup by decide))
      show List.Sublist (List.map recKey (noteSimulatedPagespeed :: _)) _
      rw [List.map_cons]
      exact List.Sublist.cons₂ _ (advRecs_keys_sublist _ _)
  · have hTake : ∀ metrics, (generateRecommendationsAdvanced metrics p).length ≤ 12 :=
      fun metrics => List.length_take_le _ _
    cases mp with
    | basic => exact le_trans (hTake _) (by norm_num)
    | pagespeed =>
      show (notePagespeedReal :: _).length ≤ 13
      rw [List.length_cons]
      exact Nat.succ_le_succ (hTake _)
    | simulated =>
      show (noteSimulatedPagespeed :: _).length ≤ 13
      rw [List.length_cons]
      exact Nat.succ_le_succ (hTake _)

/-- C4 (code bug): when all four data-source attempts fail, the chain
settles on the all-failed branch and the inner promise resolves with the
500 `NextResponse` carrying the terminal message — but the handler then
re-wraps that resolved value with `NextResponse.json(result)`, producing
an HTTP 200 whose body is the serialization of the response object (an
empty JSON object), not the claimed HTTP 500 with an error message. -/
theorem c4_all_fail_divergence :
    analysisChain (.error "pagespeed failed") (.error "fallback failed")
      (.error "basic failed") (.error "simulated failed") = .allFailed ∧
    analysisPromiseValue exModel (analysisChain (.error "pagespeed failed")
      (.error "fallback failed") (.error "basic failed") (.error "simulated failed")) =
      .errorResponse 500 unableToAnalyzeMsg ∧
    postHandlerResult exModel (.error "pagespeed failed") (.error "fallback failed")
      (.error "basic failed") (.error "simulated failed") = ⟨200, .emptyObject⟩ ∧
    (postHandlerResult exModel (.error "pagespeed failed") (.error "fallback failed")
      (.error "basic failed") (.error "simulated failed")).status ≠ 500 :=
  ⟨rfl, rfl, rfl, by decide⟩

/-- C5: the simulated PageSpeed producer `analyzeUrlFallback` is a total
function, so with the second attempt instantiated to its result the
fallback chain is independent of the basic-scrape and simulated-basic
attempts (they are unreachable), never settles on website data, and every
resulting report is built from PageSpeed-shaped data by
`generateAdvancedSustainabilityReport`. -/
theorem c5_simulated_fallback_unreachable (env : JsEnv) (m : CO2Model) (url : String)
    (a1 : Except String PageSpeedData) (a3 a4 a3' a4' : Except String WebsiteAnalysis) :
    (analysisChain a1 (.ok (analyzeUrlFallback env url)) a3 a4 =
      analysisChain a1 (.ok (analyzeUrlFallback env url)) a3' a4') ∧
    (∀ meth w, analysisChain a1 (.ok (analyzeUrlFallback env url)) a3 a4 ≠
      .websiteData meth w) ∧
    (∃ meth d, analysisChain a1 (.ok (analyzeUrlFallback env url)) a3 a4 =
        .pagespeedData meth d ∧
      analysisPromiseValue m (analysisChain a1 (.ok (analyzeUrlFallback env url)) a3 a4) =
        .envelope (.advanced (generateAdvancedSustainabilityReport m d meth))) := by
  cases a1 with
  | ok d =>
    exact ⟨rfl, fun meth w h => ChainOutcome.noConfusion h, ⟨.pagespeed, d, rfl, rfl⟩⟩
  | error e =>
    exact ⟨rfl, fun meth w h => ChainOutcome.noConfusion h,
      ⟨.simulated, analyzeUrlFallback env url, rfl, rfl⟩⟩

theorem listStartsWith_self (l : List Char) : listStartsWith l l = true := by
  induction l with
  | nil => rfl
  | cons c cs ih => simp [listStartsWith, ih]

theorem containsSub_self (l : List Char) : containsSub l l = true := by
  cases l with
  | nil => rfl
  | cons c cs => simp [containsSub, listStartsWith_self]

theorem strIncludes_self (s : String) : strIncludes s s = true :=
  containsSub_self s.data

/-- C6 (counterexample): the claim's example is false on the
basic-scrape path: `WebsiteAnalyzer.checkGreenHosting` has no
`netlify.com` entry, so https://www.netlify.com gets `false` there. -/
theorem c6_counterexample :
    analyzerCheckGreenHosting "https://www.netlify.com" = false := by decide

/-- C6 (amended): on the basic-scrape path the allow-list is the
five-entry list (greengeeks, hostgator, dreamhost, a2hosting,
siteground); a URL whose hostname exactly matches one of those entries
gets `greenHosting = true`; https://www.netlify.com gets `false` on the
basic path (netlify.com appears only in the richer-path route list, where
the flag is `true`), https://www.dreamhost.com gets `true`, and
https://example.com gets `false`. -/
theorem c6_green_hosting_amended (url host : String)
    (h1 : urlHostname url = some host) (h2 : host ∈ basicGreenHosts) :
    analyzerCheckGreenHosting url = true ∧
    analyzerCheckGreenHosting "https://www.netlify.com" = false ∧
    checkGreenHosting "https://www.netlify.com" = true ∧
    analyzerCheckGreenHosting "https://www.dreamhost.com" = true ∧
    analyzerCheckGreenHosting "https://example.com" = false := by
  refine ⟨?_, by decide, by decide, by decide, by decide⟩
  unfold analyzerCheckGreenHosting
  rw [h1]
  exact List.any_eq_true.mpr ⟨host, h2, strIncludes_self host⟩

/-- C6 (witness): the amended theorem applied to a URL whose hostname
exactly matches an allow-list entry. -/
theorem c6_amended_witness :
    urlHostname "https://dreamhost.com" = some "dreamhost.com" ∧
    "dreamhost.com" ∈ basicGreenHosts ∧
    analyzerCheckGreenHosting "https://dreamhost.com" = true :=
  ⟨by decide, by decide,
    (c6_green_hosting_amended "https://dreamhost.com" "dreamhost.com"
      (by decide) (by decide)).1⟩

/-- C7 (counterexample): when the library supplies no rating, the code
rates `totalCO2` (the per-byte total), not the per-visit grams as the
claim states: with per-byte total 0.9 g and per-visit 0.05 g the report
carries rating F while the claimed per-visit computation yields A+. -/
theorem c7_counterexample :
    (calculateCO2FromPageSpeed cexC7Model exPageSpeed false).co2Rating = "F" ∧
    calculateRating ((calculateCO2FromPageSpeed cexC7Model exPageSpeed false).co2PerVisit) =
      "A+" ∧
    (calculateCO2FromPageSpeed cexC7Model exPageSpeed false).co2Rating ≠
      calculateRating
        ((calculateCO2FromPageSpeed cexC7Model exPageSpeed false).co2PerVisit) := by
  have h1 : (calculateCO2FromPageSpeed cexC7Model exPageSpeed false).co2Rating = "F" := by
    show calculateRating (9 / 10) = "F"
    unfold calculateRating
    norm_num
  have h2 : calculateRating
      ((calculateCO2FromPageSpeed cexC7Model exPageSpeed false).co2PerVisit) = "A+" := by
    show calculateRating (1 / 20) = "A+"
    unfold calculateRating
    norm_num
  refine ⟨h1, h2, ?_⟩
  rw [h1, h2]
  decide

/-- C7 (amended): whenever the per-byte library result supplies no
rating, the emissions estimator computes the report rating by applying
the fixed thresholds to the total CO2 grams of that per-byte result —
not to the per-visit value — with thresholds ≤0.095→A+, ≤0.186→A,
≤0.341→B, ≤0.493→C, ≤0.656→D, ≤0.846→E, else F. -/
theorem c7_rating_amended (m : CO2Model) (d : PageSpeedData) (g : Bool) (x : ℚ)
    (h : (m.perByte d.totalResourceSize g).ratingField = none) :
    (calculateCO2FromPageSpeed m d g).co2Rating =
      calculateRating ((m.perByte d.totalResourceSize g).grams) ∧
    (x ≤ 0.095 → calculateRating x = "A+") ∧
    (¬ x ≤ 0.095 → x ≤ 0.186 → calculateRating x = "A") ∧
    (¬ x ≤ 0.186 → x ≤ 0.341 → calculateRating x = "B") ∧
    (¬ x ≤ 0.341 → x ≤ 0.493 → calculateRating x = "C") ∧
    (¬ x ≤ 0.493 → x ≤ 0.656 → calculateRating x = "D") ∧
    (¬ x ≤ 0.656 → x ≤ 0.846 → calculateRating x = "E") ∧
    (¬ x ≤ 0.846 → calculateRating x = "F") := by
  refine ⟨?_, ?_, ?_, ?_, ?_, ?_, ?_, ?_⟩
  · show (match (m.perByte d.totalResourceSize g).ratingField with
      | some r => r
      | none => calculateRating ((m.perByte d.totalResourceSize g).grams)) =
      calculateRating ((m.perByte d.totalResourceSize g).grams)
    rw [h]
  · intro hx
    unfold calculateRating
    rw [if_pos hx]
  · intro h1 h2
    unfold calculateRating
    rw [if_neg h1, if_pos h2]
  · intro h2 h3
    have n1 : ¬ x ≤ 0.095 := fun hc => h2 (le_trans hc (by norm_num))
    unfold calculateRating
    rw [if_neg n1, if_neg h2, if_pos h3]
  · intro h3 h4
    have n2 : ¬ x ≤ 0.186 := fun hc => h3 (le_trans hc (by norm_num))
    have n1 : ¬ x ≤ 0.095 := fun hc => n2 (le_trans hc (by norm_num))
    unfold calculateRating
    rw [if_neg n1, if_neg n2, if_neg h3, if_pos h4]
  · intro h4 h5
    have n3 : ¬ x ≤ 0.341 := fun hc => h4 (le_trans hc (by norm_num))
    have n2 : ¬ x ≤ 0.186 := fun hc => n3 (le_trans hc (by norm_num))
    have n1 : ¬ x ≤ 0.095 := fun hc => n2 (le_trans hc (by norm_num))
    unfold calculateRating
    rw [if_neg n1, if_neg n2, if_neg n3, if_neg h4, if_pos h5]
  · intro h5 h6
    have n4 : ¬ x ≤ 0.493 := fun hc => h5 (le_trans hc (by norm_num))
    have n3 : ¬ x ≤ 0.341 := fun hc => n4 (le_trans hc (by norm_num))
    have n2 : ¬ x ≤ 0.186 := fun hc => n3 (le_trans hc (by norm_num))
    have n1 : ¬ x ≤ 0.095 := fun hc => n2 (le_trans hc (by norm_num))
    unfold calculateRating
    rw [if_neg n1, if_neg n2, if_neg n3, if_neg n4, if_neg h5, if_pos h6]
  · intro h6
    have n5 : ¬ x ≤ 0.656 := fun hc => h6 (le_trans hc (by norm_num))
    have n4 : ¬ x ≤ 0.493 := fun hc => n5 (le_trans hc (by norm_num))
    have n3 : ¬ x ≤ 0.341 := fun hc => n4 (le_trans hc (by norm_num))
    have n2 : ¬ x ≤ 0.186 := fun hc => n3 (le_trans hc (by norm_num))
    have n1 : ¬ x ≤ 0.095 := fun hc => n2 (le_trans hc (by norm_num))
    unfold calculateRating
    rw [if_neg n1, if_neg n2, if_neg n3, if_neg n4, if_neg n5, if_neg h6]

/-- C7 (witness): the amended theorem applied to a concrete library
model that supplies no rating. -/
theorem c7_amended_witness :
    (cexC7Model.perByte exPageSpeed.totalResourceSize false).ratingField = none ∧
    (calculateCO2FromPageSpeed cexC7Model exPageSpeed false).co2Rating =
      calculateRating ((cexC7Model.perByte exPageSpeed.totalResourceSize false).grams) :=
  ⟨rfl, (c7_rating_amended cexC7Model exPageSpeed false 0 rfl).1⟩

/-- C8: the seeded generator always returns a value in `[0,1)` (for any
ambient `Math.sin`), and with the seed derived by `generateSeedFromUrl`
it is a pure function of the normalized URL (lower-cased, leading scheme
and `www.` stripped) and the index: equal normalized URLs give equal
values at equal indices. -/
theorem c8_seeded_random (env : JsEnv) (seed idx : ℚ) (u1 u2 : String) (i2 : ℚ)
    (h : normalizeUrl u1 = normalizeUrl u2) :
    (0 ≤ seededRandom env seed idx ∧ seededRandom env seed idx < 1) ∧
    seededRandom env (generateSeedFromUrl u1 : ℤ) i2 =
      seededRandom env (generateSeedFromUrl u2 : ℤ) i2 := by
  constructor
  · have hf : seededRandom env seed idx =
        Int.fract (env.mathSin (seed + idx * 1000) * 10000) := rfl
    rw [hf]
    exact ⟨Int.fract_nonneg _, Int.fract_lt_one _⟩
  · unfold generateSeedFromUrl
    rw [h]

/-- C8 (witness): the theorem applied to two spellings of the same
normalized URL and a concrete environment. -/
theorem c8_witness :
    normalizeUrl "HTTPS://WWW.Example.com" = normalizeUrl "example.com" ∧
    (0 ≤ seededRandom exEnv 7 3 ∧ seededRandom exEnv 7 3 < 1) ∧
    seededRandom exEnv (generateSeedFromUrl "HTTPS://WWW.Example.com" : ℤ) 5 =
      seededRandom exEnv (generateSeedFromUrl "example.com" : ℤ) 5 := by
  have hn : normalizeUrl "HTTPS://WWW.Example.com" = normalizeUrl "example.com" := by decide
  have h := c8_seeded_random exEnv 7 3 "HTTPS://WWW.Example.com" "example.com" 5 hn
  exact ⟨hn, h.1, h.2⟩

/-- C9: on the simulated paths two invocations that differ only in the
ambient nondeterminism source (`Math.random` stream) produce bit-for-bit
identical energy-efficiency, carbon-footprint, resource-optimization and
accessibility sub-scores and identical overall score — the producers are
driven entirely by the seeded generator of the URL. -/
theorem c9_simulated_deterministic (sinFn : ℚ → ℚ) (r1 r2 : ℕ → ℚ)
    (m : CO2Model) (url : String) :
    ((generateAdvancedSustainabilityReport m (analyzeUrlFallback ⟨sinFn, r1⟩ url)
        .simulated).energyEfficiency =
      (generateAdvancedSustainabilityReport m (analyzeUrlFallback ⟨sinFn, r2⟩ url)
        .simulated).energyEfficiency ∧
      (generateAdvancedSustainabilityReport m (analyzeUrlFallback ⟨sinFn, r1⟩ url)
        .simulated).carbonFootprint =
      (generateAdvancedSustainabilityReport m (analyzeUrlFallback ⟨sinFn, r2⟩ url)
        .simulated).carbonFootprint ∧
      (generateAdvancedSustainabilityReport m (analyzeUrlFallback ⟨sinFn, r1⟩ url)
        .simulated).resourceOptimization =
      (generateAdvancedSustainabilityReport m (analyzeUrlFallback ⟨sinFn, r2⟩ url)
        .simulated).resourceOptimization ∧
      (generateAdvancedSustainabilityReport m (analyzeUrlFallback ⟨sinFn, r1⟩ url)
        .simulated).accessibility =
      (generateAdvancedSustainabilityReport m (analyzeUrlFallback ⟨sinFn, r2⟩ url)
        .simulated).accessibility ∧
      (generateAdvancedSustainabilityReport m (analyzeUrlFallback ⟨sinFn, r1⟩ url)
        .simulated).overallScore =
      (generateAdvancedSustainabilityReport m (analyzeUrlFallback ⟨sinFn, r2⟩ url)
        .simulated).overallScore) ∧
    ((generateSustainabilityReport (generateSimulatedAnalysis ⟨sinFn, r1⟩ url)
        .simulated).energyEfficiency =
      (generateSustainabilityReport (generateSimulatedAnalysis ⟨sinFn, r2⟩ url)
        .simulated).energyEfficiency ∧
      (generateSustainabilityReport (generateSimulatedAnalysis ⟨sinFn, r1⟩ url)
        .simulated).carbonFootprint =
      (generateSustainabilityReport (generateSimulatedAnalysis ⟨sinFn, r2⟩ url)
        .simulated).carbonFootprint ∧
      (generateSustainabilityReport (generateSimulatedAnalysis ⟨sinFn, r1⟩ url)
        .simulated).resourceOptimization =
      (generateSustainabilityReport (generateSimulatedAnalysis ⟨sinFn, r2⟩ url)
        .simulated).resourceOptimization ∧
      (generateSustainabilityReport (generateSimulatedAnalysis ⟨sinFn, r1⟩ url)
        .simulated).accessibility =
      (generateSustainabilityReport (generateSimulatedAnalysis ⟨sinFn, r2⟩ url)
        .simulated).accessibility ∧
      (generateSustainabilityReport (generateSimulatedAnalysis ⟨sinFn, r1⟩ url)
        .simulated).overallScore =
      (generateSustainabilityReport (generateSimulatedAnalysis ⟨sinFn, r2⟩ url)
        .simulated).overallScore) :=
  ⟨⟨rfl, rfl, rfl, rfl, rfl⟩, ⟨rfl, rfl, rfl, rfl, rfl⟩⟩

/-- C10: with zero transferred bytes — so the per-byte CO2 of the
current configuration is zero — the green-hosting impact's savings
percentage is exactly 0: the `current > 0` guard prevents the division. -/
theorem c10_green_hosting_zero (m : CO2Model) (g : Bool)
    (h : (m.perByte 0 g).grams = 0) :
    (calculateGreenHostingImpact m 0 g).savingsPercentage = 0 := by
  show (if (m.perByte 0 g).grams > 0 then
    ((m.perByte 0 g).grams - (m.perByte 0 true).grams) / (m.perByte 0 g).grams * 100
    else 0) = 0
  rw [h]
  norm_num

/-- C10 (witness): the theorem applied to the concrete linear model. -/
theorem c10_witness :
    (exModel.perByte 0 false).grams = 0 ∧
    (calculateGreenHostingImpact exModel 0 false).savingsPercentage = 0 := by
  have h : (exModel.perByte 0 false).grams = 0 := by
    show (0 : ℚ) * 4 / 10000000 = 0
    norm_num
  exact ⟨h, c10_green_hosting_zero exModel false h⟩

end WSC
